import Mathlib

/-!
Verification of the OpenTAXII subscription-request handlers
(opentaxii/taxii/services/handlers/subscription_request_handlers.py),
shallowly embedded in Lean 4.

Conventions of the embedding:
* A subscription id is a `String`; the empty string encodes an absent id
  (Python treats both `None` and `""` as falsy in `not request.subscription_id`).
* The external durable store (the `service` collaborator) is modelled as an
  explicit `Store` value threaded through the handlers, together with a trace
  of `StoreEvent`s recording every store access in order.
* A raised `StatusMessageException` becomes the `Except` error
  `HandlerFailure.signal`; a Python runtime error (attribute access on `None`,
  dictionary `KeyError`) becomes `HandlerFailure.pythonError`.
* The version-11 field `collection_name` and the version-10 field `feed_name`
  are unified as the request field `name` (the spec states the difference is
  purely one of naming).
-/

/-- Lifecycle status of a subscription: the class constants
`SubscriptionEntity.ACTIVE / PAUSED / UNSUBSCRIBED`. -/
inductive SubStatus where
  | active
  | paused
  | unsubscribed
deriving DecidableEq, Repr

/-- The `PollRequestParametersEntity`: response-delivery mode plus the
negotiated content-format list. -/
structure PollRequestParametersEntity where
  response_type : Option String
  content_bindings : List String
deriving DecidableEq, Repr

/-- The `SubscriptionEntity`: identity, owning collection, lifecycle status and
negotiated poll parameters.  Fields not supplied to the Python constructor
default to `None`; an absent `subscription_id` is the empty string. -/
structure SubscriptionEntity where
  subscription_id : String
  collection_id : Option Nat
  status : SubStatus
  params : Option PollRequestParametersEntity
deriving DecidableEq, Repr

/-- A collection (external, read-only to this core): identity, display name and
the supported content-format identifiers, in the collection's order. -/
structure CollectionEntity where
  id : Nat
  name : String
  supported_content : List String
deriving DecidableEq, Repr

/-- A polling-endpoint descriptor: one per reachable endpoint and
transport-binding combination. -/
structure PollingServiceInstance where
  poll_address : String
  poll_protocol : String
deriving DecidableEq, Repr

/-- Modelled from the spec: the state of the external durable store and of the
service configuration, as far as the handlers observe it (collection registry,
subscription table, id counter for newly created subscriptions, the configured
subscription banner message, and the reachable polling endpoints). -/
structure Store where
  collections : List CollectionEntity
  subscriptions : List SubscriptionEntity
  next_id : Nat
  subscription_message : Option String
  polling_services : List PollingServiceInstance
deriving DecidableEq, Repr

/-- Modelled from the spec: `service.get_collection(name)` looks a collection
up by name in the registry; identity is stable and unique within the service. -/
def get_collection (store : Store) (collection_name : String) : Option CollectionEntity :=
  store.collections.find? (fun c => c.name == collection_name)

/-- Modelled from the spec: `service.get_subscription(sid)` looks a
subscription up by id; absent ids yield `none`. -/
def get_subscription (store : Store) (sid : String) : Option SubscriptionEntity :=
  store.subscriptions.find? (fun s => s.subscription_id == sid)

/-- Modelled from the spec: `service.get_subscriptions()` returns every
subscription known for the service. -/
def get_subscriptions (store : Store) : List SubscriptionEntity :=
  store.subscriptions

/-- Modelled from the spec: `service.update_subscription(subscription, status)`
mutates the persisted subscription in place (status only) and returns the
updated entity. -/
def update_subscription (store : Store) (subscription : SubscriptionEntity)
    (new_status : SubStatus) : SubscriptionEntity × Store :=
  let updated := { subscription with status := new_status }
  let new_subs := store.subscriptions.map
    (fun s => if s.subscription_id == subscription.subscription_id then updated else s)
  (updated, { store with subscriptions := new_subs })

/-- Modelled from the spec: `service.create_subscription(subscription)`
persists a new subscription; the store assigns the id. -/
def create_subscription (store : Store) (subscription : SubscriptionEntity) :
    SubscriptionEntity × Store :=
  let assigned := { subscription with
    subscription_id := String.append "subscription-" (toString store.next_id) }
  (assigned,
   { store with
       subscriptions := store.subscriptions ++ [assigned],
       next_id := store.next_id + 1 })

/-- Modelled from the spec: `service.get_polling_services(collection)` asks the
external endpoint registry for the reachable delivery endpoints; the core
embeds the result verbatim. -/
def get_polling_services (store : Store) (_collection : CollectionEntity) :
    List PollingServiceInstance :=
  store.polling_services

/-- A store access, recorded in order of occurrence. -/
inductive StoreEvent where
  | getSubscription (sid : String)
  | getCollection (name : String)
  | getSubscriptions
  | createSubscription
  | updateSubscription (sid : String) (new_status : SubStatus)
  | getPollingServices
deriving DecidableEq, Repr

/-- Status codes of the TAXII status signals raised by these handlers
(`ST_BAD_MESSAGE`, `ST_NOT_FOUND`, `ST_UNSUPPORTED_CONTENT_BINDING`). -/
inductive StatusType where
  | bad_message
  | not_found
  | unsupported_content_binding
deriving DecidableEq, Repr

/-- The structured detail map of a status signal: empty, `SD_ITEM` with the
offending name or id, or `SD_SUPPORTED_CONTENT` with the collection's full
supported list. -/
inductive StatusDetails where
  | empty
  | item (value : String)
  | supportedContent (bindings : List String)
deriving DecidableEq, Repr

/-- A raised `StatusMessageException`: status code, optional human message,
detail map, and the correlation id of the request it answers. -/
structure StatusSignal where
  status_type : StatusType
  message : Option String
  status_details : StatusDetails
  in_response_to : String
deriving DecidableEq, Repr

/-- How handler execution can abort: a structured status signal, or a Python
runtime error (attribute access on `None`, dictionary `KeyError`). -/
inductive HandlerFailure where
  | signal (s : StatusSignal)
  | pythonError
deriving DecidableEq, Repr

/-- The `subscription_parameters` block of a version-11 request
(`response_type` plus the requested `content_bindings`); libtaxii initialises
it to an empty default object, so it is always present. -/
structure SubscriptionParameters where
  response_type : Option String
  content_bindings : List String
deriving DecidableEq, Repr

/-- An inbound subscription-management request.  `name` is the version-11
`collection_name` alias the version-10 `feed_name`; an absent
`subscription_id` is the empty string; `subscription_parameters` is read only
by the version-11 SUBSCRIBE path. -/
structure SubscriptionRequest where
  message_id : String
  action : String
  name : String
  subscription_id : String
  subscription_parameters : SubscriptionParameters
deriving DecidableEq, Repr

/-- Wire form of one subscription instance in a response: id, status
(version 11 only), negotiated parameters (version 11 only) and the
poll-endpoint descriptors. -/
structure SubscriptionInstanceWire where
  subscription_id : String
  status : Option SubStatus
  subscription_parameters : Option PollRequestParametersEntity
  poll_instances : List PollingServiceInstance
deriving DecidableEq, Repr

/-- The assembled response envelope (both wire generations share this shape up
to field naming): fresh message id, correlation id, collection or feed name,
banner message, and the ordered subscription instances. -/
structure SubscriptionResponse where
  message_id : String
  in_response_to : String
  name : String
  message : Option String
  subscription_instances : List SubscriptionInstanceWire
deriving DecidableEq, Repr

/-- Result of one action transition: a single subscription entity or a list of
them (Python returns either and the handler tests with `isinstance`). -/
inductive ActionResult where
  | single (s : SubscriptionEntity)
  | multiple (l : List SubscriptionEntity)
deriving DecidableEq, Repr

/-- libtaxii constant `ACT_SUBSCRIBE`. -/
def ACT_SUBSCRIBE : String := "SUBSCRIBE"

/-- libtaxii constant `ACT_UNSUBSCRIBE`. -/
def ACT_UNSUBSCRIBE : String := "UNSUBSCRIBE"

/-- libtaxii constant `ACT_PAUSE`. -/
def ACT_PAUSE : String := "PAUSE"

/-- libtaxii constant `ACT_RESUME`. -/
def ACT_RESUME : String := "RESUME"

/-- libtaxii constant `ACT_STATUS`. -/
def ACT_STATUS : String := "STATUS"

/-- libtaxii constant `ACT_TYPES_11`: the version-11 legal action set. -/
def ACT_TYPES_11 : List String :=
  [ACT_SUBSCRIBE, ACT_UNSUBSCRIBE, ACT_PAUSE, ACT_RESUME, ACT_STATUS]

/-- libtaxii constant `ACT_TYPES_10`: the version-10 legal action set
(no PAUSE, no RESUME). -/
def ACT_TYPES_10 : List String :=
  [ACT_SUBSCRIBE, ACT_UNSUBSCRIBE, ACT_STATUS]

/-- Modelled from the spec: `parse_content_bindings` converts raw wire
content-binding identifiers into their internal form; at the level of format
identifiers this is the identity. -/
def parse_content_bindings (bindings : List String) (_version : Nat) : List String :=
  bindings

/-- Modelled from the spec: `collection.get_matching_bindings(requested)`
computes the ordered intersection of the requested formats with the
collection's supported formats, in the collection's order. -/
def get_matching_bindings (collection : CollectionEntity) (requested : List String) :
    List String :=
  collection.supported_content.filter (fun b => requested.contains b)

/-- Modelled from the spec: `collection.get_supported_content(version)` is the
collection's full supported-format list. -/
def get_supported_content (collection : CollectionEntity) (_version : Nat) : List String :=
  collection.supported_content

/-- `retrieve_collection`: resolve a collection by name or raise NOT_FOUND
with detail item = the requested name. -/
def retrieve_collection (store : Store) (collection_name : String)
    (in_response_to : String) : Except HandlerFailure CollectionEntity :=
  match get_collection store collection_name with
  | none =>
      .error (.signal
        { status_type := StatusType.not_found,
          message := some "The collection you requested was not found",
          status_details := StatusDetails.item collection_name,
          in_response_to := in_response_to })
  | some collection => .ok collection

/-- `action_subscribe`: negotiate content bindings (version 11 only), build the
new ACTIVE subscription and persist it via the store. -/
def action_subscribe (request : SubscriptionRequest) (store : Store)
    (collection : CollectionEntity) (version : Nat) :
    Except HandlerFailure ActionResult × Store × List StoreEvent :=
  let negotiated : Except HandlerFailure (Option String × List String) :=
    if version == 11 then
      let params := request.subscription_parameters
      if params.content_bindings.length == 0 then
        .ok (params.response_type, [])
      else
        let requested_bindings := parse_content_bindings params.content_bindings version
        let supported_contents := get_matching_bindings collection requested_bindings
        if !requested_bindings.isEmpty && supported_contents.isEmpty then
          .error (.signal
            { status_type := StatusType.unsupported_content_binding,
              message := none,
              status_details :=
                StatusDetails.supportedContent (get_supported_content collection version),
              in_response_to := request.message_id })
        else
          .ok (params.response_type, supported_contents)
    else
      .ok (none, [])
  match negotiated with
  | .error e => (.error e, store, [])
  | .ok (response_type, supported_contents) =>
      let poll_request_params : PollRequestParametersEntity :=
        { response_type := response_type, content_bindings := supported_contents }
      let subscription : SubscriptionEntity :=
        { subscription_id := "",
          collection_id := some collection.id,
          status := SubStatus.active,
          params := some poll_request_params }
      let created := create_subscription store subscription
      (.ok (ActionResult.single created.1), created.2, [StoreEvent.createSubscription])

/-- `action_unsubscribe`: if the subscription exists, persist status
UNSUBSCRIBED; otherwise return a synthetic, unpersisted entity carrying the
requested id and status UNSUBSCRIBED. -/
def action_unsubscribe (request : SubscriptionRequest) (store : Store)
    (subscription : Option SubscriptionEntity) :
    Except HandlerFailure ActionResult × Store × List StoreEvent :=
  match subscription with
  | some sub =>
      let updated := update_subscription store sub SubStatus.unsubscribed
      (.ok (ActionResult.single updated.1), updated.2,
       [StoreEvent.updateSubscription sub.subscription_id SubStatus.unsubscribed])
  | none =>
      (.ok (ActionResult.single
        { subscription_id := request.subscription_id,
          collection_id := none,
          status := SubStatus.unsubscribed,
          params := none }),
       store, [])

/-- `action_status`: the resolved subscription if one was resolved, otherwise
every subscription known for the service. -/
def action_status (store : Store) (subscription : Option SubscriptionEntity) :
    Except HandlerFailure ActionResult × Store × List StoreEvent :=
  match subscription with
  | some sub => (.ok (ActionResult.single sub), store, [])
  | none =>
      (.ok (ActionResult.multiple (get_subscriptions store)), store,
       [StoreEvent.getSubscriptions])

/-- `action_pause`: no-op when already PAUSED, else persist status PAUSED.
Reading `subscription.status` on an absent subscription is a Python
`AttributeError`, modelled as `pythonError`. -/
def action_pause (store : Store) (subscription : Option SubscriptionEntity) :
    Except HandlerFailure ActionResult × Store × List StoreEvent :=
  match subscription with
  | none => (.error HandlerFailure.pythonError, store, [])
  | some sub =>
      if sub.status == SubStatus.paused then
        (.ok (ActionResult.single sub), store, [])
      else
        let updated := update_subscription store sub SubStatus.paused
        (.ok (ActionResult.single updated.1), updated.2,
         [StoreEvent.updateSubscription sub.subscription_id SubStatus.paused])

/-- `action_resume`: no-op when not PAUSED, else persist status ACTIVE.
Reading `subscription.status` on an absent subscription is a Python
`AttributeError`, modelled as `pythonError`. -/
def action_resume (store : Store) (subscription : Option SubscriptionEntity) :
    Except HandlerFailure ActionResult × Store × List StoreEvent :=
  match subscription with
  | none => (.error HandlerFailure.pythonError, store, [])
  | some sub =>
      if !(sub.status == SubStatus.paused) then
        (.ok (ActionResult.single sub), store, [])
      else
        let updated := update_subscription store sub SubStatus.active
        (.ok (ActionResult.single updated.1), updated.2,
         [StoreEvent.updateSubscription sub.subscription_id SubStatus.active])

/-- The `ACTIONS` dispatch table keyed by the action string; an unknown key is
a Python `KeyError`, modelled as `pythonError`. -/
def run_action (action : String) (request : SubscriptionRequest) (store : Store)
    (collection : CollectionEntity) (subscription : Option SubscriptionEntity)
    (version : Nat) :
    Except HandlerFailure ActionResult × Store × List StoreEvent :=
  if action == ACT_SUBSCRIBE then
    action_subscribe request store collection version
  else if action == ACT_UNSUBSCRIBE then
    action_unsubscribe request store subscription
  else if action == ACT_PAUSE then
    action_pause store subscription
  else if action == ACT_RESUME then
    action_resume store subscription
  else if action == ACT_STATUS then
    action_status store subscription
  else
    (.error HandlerFailure.pythonError, store, [])

/-- Modelled from the spec: `subscription_to_subscription_instance` builds the
wire instance for one result subscription — id, status (version 11 only), the
subscription parameters it was given (version 11 only; the version-10 call
site passes none) and one poll-instance per reachable endpoint and binding. -/
def subscription_to_subscription_instance (subscription : SubscriptionEntity)
    (polling_services : List PollingServiceInstance) (version : Nat)
    (subscription_parameters : Option PollRequestParametersEntity) :
    SubscriptionInstanceWire :=
  { subscription_id := subscription.subscription_id,
    status := if version == 11 then some subscription.status else none,
    subscription_parameters := if version == 11 then subscription_parameters else none,
    poll_instances := polling_services }

/-- The source's `if request.subscription_id:` guard around
`service.get_subscription`: no lookup happens when the id is absent. -/
def lookup_subscription (store : Store) (request : SubscriptionRequest) :
    Option SubscriptionEntity × List StoreEvent :=
  if request.subscription_id == "" then
    (none, [])
  else
    (get_subscription store request.subscription_id,
     [StoreEvent.getSubscription request.subscription_id])

/-- The source's mismatch guard
`if subscription and subscription.collection_id != collection.id`. -/
def collection_mismatch (subscription : Option SubscriptionEntity)
    (collection : CollectionEntity) : Bool :=
  match subscription with
  | some sub => !(sub.collection_id == some collection.id)
  | none => false

/-- The source's `isinstance(result, list)` normalisation of an action result
into a list of result subscriptions. -/
def results_of (r : ActionResult) : List SubscriptionEntity :=
  match r with
  | ActionResult.single s => [s]
  | ActionResult.multiple l => l

namespace SubscriptionRequest11Handler

/-- `SubscriptionRequest11Handler.validate_request`: BAD_MESSAGE for an action
outside the version-11 legal set, BAD_MESSAGE for UNSUBSCRIBE, PAUSE or RESUME
without a subscription id, then NOT_FOUND when the subscription is absent and
the action is PAUSE, RESUME, or STATUS with a subscription id supplied. -/
def validate_request (request : SubscriptionRequest)
    (subscription : Option SubscriptionEntity) : Option StatusSignal :=
  let action := request.action
  let error_message : Option String :=
    if !(ACT_TYPES_11.contains action) then
      some "The specified action was invalid"
    else if (action == ACT_UNSUBSCRIBE || action == ACT_PAUSE || action == ACT_RESUME)
        && (request.subscription_id == "") then
      some (String.append (String.append "Action \"" action)
        "\" requires a subscription id")
    else
      none
  match error_message with
  | some msg =>
      some { status_type := StatusType.bad_message,
             message := some msg,
             status_details := StatusDetails.empty,
             in_response_to := request.message_id }
  | none =>
      if subscription.isNone
          && ((action == ACT_PAUSE || action == ACT_RESUME)
              || (action == ACT_STATUS && !(request.subscription_id == ""))) then
        some { status_type := StatusType.not_found,
               message := none,
               status_details := StatusDetails.item request.subscription_id,
               in_response_to := request.message_id }
      else
        none

/-- `SubscriptionRequest11Handler.handle_message`: look the subscription up
when an id was supplied, validate, resolve the collection, reject a collection
mismatch, run the action, and assemble the version-11 response. -/
def handle_message (store : Store) (request : SubscriptionRequest)
    (new_message_id : String) :
    Except HandlerFailure SubscriptionResponse × Store × List StoreEvent :=
  let subscription := (lookup_subscription store request).1
  let ev1 := (lookup_subscription store request).2
  match validate_request request subscription with
  | some sig => (.error (.signal sig), store, ev1)
  | none =>
      let ev2 := ev1 ++ [StoreEvent.getCollection request.name]
      match retrieve_collection store request.name request.message_id with
      | .error e => (.error e, store, ev2)
      | .ok collection =>
          if collection_mismatch subscription collection then
            (.error (.signal
              { status_type := StatusType.not_found,
                message := none,
                status_details := StatusDetails.item request.name,
                in_response_to := request.message_id }),
             store, ev2)
          else
            let acted := run_action request.action request store collection subscription 11
            match acted.1 with
            | .error e => (.error e, acted.2.1, ev2 ++ acted.2.2)
            | .ok r =>
                let results := results_of r
                let store2 := acted.2.1
                let polling_services := get_polling_services store2 collection
                let instances := results.map (fun s =>
                  subscription_to_subscription_instance s polling_services 11 s.params)
                (.ok { message_id := new_message_id,
                       in_response_to := request.message_id,
                       name := collection.name,
                       message := store.subscription_message,
                       subscription_instances := instances },
                 store2, ev2 ++ acted.2.2 ++ [StoreEvent.getPollingServices])

end SubscriptionRequest11Handler

namespace SubscriptionRequest10Handler

/-- `SubscriptionRequest10Handler.validate_request`: BAD_MESSAGE for an action
outside the version-10 legal set, and BAD_MESSAGE for UNSUBSCRIBE without a
subscription id.  It sees no subscription: version 10 validates before any
lookup. -/
def validate_request (request : SubscriptionRequest) : Option StatusSignal :=
  let action := request.action
  let error_message : Option String :=
    if !(ACT_TYPES_10.contains action) then
      some "The specified action was invalid"
    else if (action == ACT_UNSUBSCRIBE) && (request.subscription_id == "") then
      some (String.append (String.append "Action \"" action)
        "\" requires a subscription id")
    else
      none
  match error_message with
  | some msg =>
      some { status_type := StatusType.bad_message,
             message := some msg,
             status_details := StatusDetails.empty,
             in_response_to := request.message_id }
  | none => none

/-- `SubscriptionRequest10Handler.handle_message`: validate, resolve the feed,
look the subscription up when an id was supplied, reject a collection
mismatch, run the action, and assemble the version-10 response (no status and
no subscription parameters on the wire instances). -/
def handle_message (store : Store) (request : SubscriptionRequest)
    (new_message_id : String) :
    Except HandlerFailure SubscriptionResponse × Store × List StoreEvent :=
  match validate_request request with
  | some sig => (.error (.signal sig), store, [])
  | none =>
      let ev1 := [StoreEvent.getCollection request.name]
      match retrieve_collection store request.name request.message_id with
      | .error e => (.error e, store, ev1)
      | .ok collection =>
          let subscription := (lookup_subscription store request).1
          let ev2 := ev1 ++ (lookup_subscription store request).2
          if collection_mismatch subscription collection then
            (.error (.signal
              { status_type := StatusType.not_found,
                message := none,
                status_details := StatusDetails.item request.name,
                in_response_to := request.message_id }),
             store, ev2)
          else
            let acted := run_action request.action request store collection subscription 10
            match acted.1 with
            | .error e => (.error e, acted.2.1, ev2 ++ acted.2.2)
            | .ok r =>
                let results := results_of r
                let store2 := acted.2.1
                let polling_services := get_polling_services store2 collection
                let instances := results.map (fun s =>
                  subscription_to_subscription_instance s polling_services 10 none)
                (.ok { message_id := new_message_id,
                       in_response_to := request.message_id,
                       name := collection.name,
                       message := store.subscription_message,
                       subscription_instances := instances },
                 store2, ev2 ++ acted.2.2 ++ [StoreEvent.getPollingServices])

end SubscriptionRequest10Handler

/-- Sample negotiated parameters used by the concrete fixtures. -/
def sampleParams : PollRequestParametersEntity :=
  { response_type := some "FULL", content_bindings := ["binding-A"] }

/-- Fixture collection, id 1. -/
def coll_A : CollectionEntity :=
  { id := 1, name := "collection-A", supported_content := ["binding-A", "binding-B"] }

/-- Fixture collection, id 2. -/
def coll_B : CollectionEntity :=
  { id := 2, name := "collection-B", supported_content := ["binding-C"] }

/-- Fixture subscription under collection 1, status ACTIVE. -/
def sub_active : SubscriptionEntity :=
  { subscription_id := "s1", collection_id := some 1, status := SubStatus.active,
    params := some sampleParams }

/-- Fixture subscription under collection 1, status PAUSED. -/
def sub_paused : SubscriptionEntity :=
  { sub_active with status := SubStatus.paused }

/-- Fixture subscription under collection 1, status UNSUBSCRIBED. -/
def sub_unsub : SubscriptionEntity :=
  { sub_active with status := SubStatus.unsubscribed }

/-- Fixture store holding both collections and the ACTIVE subscription. -/
def store_A : Store :=
  { collections := [coll_A, coll_B], subscriptions := [sub_active], next_id := 7,
    subscription_message := some "Welcome",
    polling_services := [{ poll_address := "addr-1", poll_protocol := "proto-1" }] }

/-- Fixture store holding the PAUSED subscription. -/
def store_P : Store :=
  { store_A with subscriptions := [sub_paused] }

/-- Fixture store holding the UNSUBSCRIBED subscription. -/
def store_U : Store :=
  { store_A with subscriptions := [sub_unsub] }

/-- Claim C4: PAUSE on an already-PAUSED subscription returns it unchanged
with no store write; RESUME off PAUSED returns it unchanged with no store
write; otherwise PAUSE persists status PAUSED and RESUME persists status
ACTIVE; each transition returns exactly one subscription. -/
theorem C4_pause_resume_idempotent (store : Store) (sub : SubscriptionEntity) :
    (sub.status = SubStatus.paused →
      action_pause store (some sub) = (.ok (ActionResult.single sub), store, []))
    ∧ (sub.status ≠ SubStatus.paused →
      action_pause store (some sub) =
        (.ok (ActionResult.single { sub with status := SubStatus.paused }),
         (update_subscription store sub SubStatus.paused).2,
         [StoreEvent.updateSubscription sub.subscription_id SubStatus.paused]))
    ∧ (sub.status ≠ SubStatus.paused →
      action_resume store (some sub) = (.ok (ActionResult.single sub), store, []))
    ∧ (sub.status = SubStatus.paused →
      action_resume store (some sub) =
        (.ok (ActionResult.single { sub with status := SubStatus.active }),
         (update_subscription store sub SubStatus.active).2,
         [StoreEvent.updateSubscription sub.subscription_id SubStatus.active])) := by
  refine ⟨?_, ?_, ?_, ?_⟩ <;> intro h <;>
    simp [action_pause, action_resume, update_subscription, h]

/-- Concrete witness for claim C4, instantiating both the no-op branches and
the persisting branches. -/
theorem C4_pause_resume_idempotent_witness :
    action_pause store_P (some sub_paused) = (.ok (ActionResult.single sub_paused), store_P, [])
    ∧ action_resume store_P (some sub_paused) =
        (.ok (ActionResult.single { sub_paused with status := SubStatus.active }),
         (update_subscription store_P sub_paused SubStatus.active).2,
         [StoreEvent.updateSubscription sub_paused.subscription_id SubStatus.active])
    ∧ action_pause store_A (some sub_active) =
        (.ok (ActionResult.single { sub_active with status := SubStatus.paused }),
         (update_subscription store_A sub_active SubStatus.paused).2,
         [StoreEvent.updateSubscription sub_active.subscription_id SubStatus.paused])
    ∧ action_resume store_A (some sub_active) =
        (.ok (ActionResult.single sub_active), store_A, []) :=
  ⟨(C4_pause_resume_idempotent store_P sub_paused).1 (by decide),
   (C4_pause_resume_idempotent store_P sub_paused).2.2.2 (by decide),
   (C4_pause_resume_idempotent store_A sub_active).2.1 (by decide),
   (C4_pause_resume_idempotent store_A sub_active).2.2.1 (by decide)⟩

/-- Claim C2 is false on the code: pausing an UNSUBSCRIBED subscription does
not leave it unchanged — `action_pause` compares only against PAUSED, so it
transitions the subscription to PAUSED and issues a store update. -/
theorem C2_counterexample :
    (action_pause store_U (some sub_unsub)).1 =
      .ok (ActionResult.single { sub_unsub with status := SubStatus.paused })
    ∧ { sub_unsub with status := SubStatus.paused } ≠ sub_unsub
    ∧ (action_pause store_U (some sub_unsub)).2.2 =
      [StoreEvent.updateSubscription "s1" SubStatus.paused]
    ∧ (action_pause store_U (some sub_unsub)).2.1 ≠ store_U := by
  refine ⟨by rfl, by decide, by rfl, by decide⟩

/-- Claim C2 amended: UNSUBSCRIBED is terminal only under RESUME — resuming an
UNSUBSCRIBED subscription returns it unchanged with no store update, but
pausing it persists status PAUSED with a store update. -/
theorem C2_unsubscribed_amended (store : Store) (sub : SubscriptionEntity)
    (h : sub.status = SubStatus.unsubscribed) :
    action_resume store (some sub) = (.ok (ActionResult.single sub), store, [])
    ∧ action_pause store (some sub) =
        (.ok (ActionResult.single { sub with status := SubStatus.paused }),
         (update_subscription store sub SubStatus.paused).2,
         [StoreEvent.updateSubscription sub.subscription_id SubStatus.paused]) := by
  refine ⟨?_, ?_⟩ <;> simp [action_pause, action_resume, update_subscription, h]

/-- Concrete witness for the amended claim C2. -/
theorem C2_unsubscribed_amended_witness :
    action_resume store_U (some sub_unsub) =
      (.ok (ActionResult.single sub_unsub), store_U, [])
    ∧ action_pause store_U (some sub_unsub) =
        (.ok (ActionResult.single { sub_unsub with status := SubStatus.paused }),
         (update_subscription store_U sub_unsub SubStatus.paused).2,
         [StoreEvent.updateSubscription sub_unsub.subscription_id SubStatus.paused]) :=
  C2_unsubscribed_amended store_U sub_unsub (by decide)

/-- The subscription entity that `action_subscribe` builds before persisting:
owned by the resolved collection, status ACTIVE, with the negotiated
parameters. -/
def subscribed_entity (collection : CollectionEntity) (response_type : Option String)
    (accepted : List String) : SubscriptionEntity :=
  { subscription_id := "",
    collection_id := some collection.id,
    status := SubStatus.active,
    params := some { response_type := response_type, content_bindings := accepted } }

/-- Claim C6: version-11 SUBSCRIBE with zero requested formats accepts the
empty list; with one or more requested formats and an empty intersection with
the collection's supported formats it raises UNSUPPORTED_CONTENT_BINDING
carrying the collection's full supported list and the request's message id;
version 10 never negotiates and always accepts the empty list. -/
theorem C6_content_negotiation (request : SubscriptionRequest) (store : Store)
    (collection : CollectionEntity) :
    (request.subscription_parameters.content_bindings = [] →
      action_subscribe request store collection 11 =
        (.ok (ActionResult.single
          (create_subscription store
            (subscribed_entity collection request.subscription_parameters.response_type [])).1),
         (create_subscription store
           (subscribed_entity collection request.subscription_parameters.response_type [])).2,
         [StoreEvent.createSubscription]))
    ∧ (request.subscription_parameters.content_bindings ≠ [] →
      get_matching_bindings collection request.subscription_parameters.content_bindings = [] →
      action_subscribe request store collection 11 =
        (.error (.signal
          { status_type := StatusType.unsupported_content_binding,
            message := none,
            status_details := StatusDetails.supportedContent collection.supported_content,
            in_response_to := request.message_id }),
         store, []))
    ∧ (action_subscribe request store collection 10 =
        (.ok (ActionResult.single
          (create_subscription store (subscribed_entity collection none [])).1),
         (create_subscription store (subscribed_entity collection none [])).2,
         [StoreEvent.createSubscription])) := by
  refine ⟨?_, ?_, ?_⟩
  · intro h
    simp [action_subscribe, subscribed_entity, h]
  · intro h1 h2
    simp [action_subscribe, parse_content_bindings, get_supported_content, h2,
      List.length_eq_zero, h1, List.isEmpty_iff]
  · simp [action_subscribe, subscribed_entity]

/-- Concrete witness for claim C6: a request with no formats, one whose single
format the collection does not support, and a version-10 subscribe. -/
theorem C6_content_negotiation_witness :
    action_subscribe
        { message_id := "mid-6", action := ACT_SUBSCRIBE, name := "collection-A",
          subscription_id := "",
          subscription_parameters := { response_type := some "FULL", content_bindings := [] } }
        store_A coll_A 11 =
      (.ok (ActionResult.single
        (create_subscription store_A (subscribed_entity coll_A (some "FULL") [])).1),
       (create_subscription store_A (subscribed_entity coll_A (some "FULL") [])).2,
       [StoreEvent.createSubscription])
    ∧ action_subscribe
        { message_id := "mid-6b", action := ACT_SUBSCRIBE, name := "collection-A",
          subscription_id := "",
          subscription_parameters :=
            { response_type := some "FULL", content_bindings := ["binding-Z"] } }
        store_A coll_A 11 =
      (.error (.signal
        { status_type := StatusType.unsupported_content_binding,
          message := none,
          status_details := StatusDetails.supportedContent ["binding-A", "binding-B"],
          in_response_to := "mid-6b" }),
       store_A, []) :=
  ⟨(C6_content_negotiation
      { message_id := "mid-6", action := ACT_SUBSCRIBE, name := "collection-A",
        subscription_id := "",
        subscription_parameters := { response_type := some "FULL", content_bindings := [] } }
      store_A coll_A).1 (by decide),
   (C6_content_negotiation
      { message_id := "mid-6b", action := ACT_SUBSCRIBE, name := "collection-A",
        subscription_id := "",
        subscription_parameters :=
          { response_type := some "FULL", content_bindings := ["binding-Z"] } }
      store_A coll_A).2.1 (by decide) (by decide)⟩

/-- Claim C5: an UNSUBSCRIBE for an id unknown to the store does not fail —
the version-11 handler returns exactly one synthetic instance carrying the
requested id and status UNSUBSCRIBED, the store is unchanged and no write is
issued; `action_unsubscribe` on an absent subscription builds the synthetic,
unpersisted entity, and on a known subscription persists status UNSUBSCRIBED
and returns that one subscription. -/
theorem C5_unknown_unsubscribe (store : Store) (request : SubscriptionRequest)
    (new_message_id : String) (collection : CollectionEntity)
    (hact : request.action = ACT_UNSUBSCRIBE)
    (hsid : request.subscription_id ≠ "")
    (hcoll : get_collection store request.name = some collection) :
    (get_subscription store request.subscription_id = none →
      SubscriptionRequest11Handler.handle_message store request new_message_id =
        (.ok { message_id := new_message_id,
               in_response_to := request.message_id,
               name := collection.name,
               message := store.subscription_message,
               subscription_instances :=
                 [{ subscription_id := request.subscription_id,
                    status := some SubStatus.unsubscribed,
                    subscription_parameters := none,
                    poll_instances := store.polling_services }] },
         store,
         [StoreEvent.getSubscription request.subscription_id,
          StoreEvent.getCollection request.name,
          StoreEvent.getPollingServices]))
    ∧ (action_unsubscribe request store none =
        (.ok (ActionResult.single
          { subscription_id := request.subscription_id, collection_id := none,
            status := SubStatus.unsubscribed, params := none }),
         store, []))
    ∧ (∀ sub : SubscriptionEntity, action_unsubscribe request store (some sub) =
        (.ok (ActionResult.single { sub with status := SubStatus.unsubscribed }),
         (update_subscription store sub SubStatus.unsubscribed).2,
         [StoreEvent.updateSubscription sub.subscription_id SubStatus.unsubscribed])) := by
  refine ⟨?_, ?_, ?_⟩
  · intro hsub
    simp [SubscriptionRequest11Handler.handle_message,
      SubscriptionRequest11Handler.validate_request, lookup_subscription,
      retrieve_collection, collection_mismatch, run_action, action_unsubscribe,
      results_of, subscription_to_subscription_instance, get_polling_services,
      hact, hsid, hcoll, hsub, ACT_TYPES_11, ACT_UNSUBSCRIBE, ACT_SUBSCRIBE,
      ACT_PAUSE, ACT_RESUME, ACT_STATUS]
  · simp [action_unsubscribe]
  · intro sub
    simp [action_unsubscribe, update_subscription]

/-- Fixture request: version-11 UNSUBSCRIBE naming an id unknown to the
store. -/
def unknown_unsub_request : SubscriptionRequest :=
  { message_id := "mid-5", action := ACT_UNSUBSCRIBE, name := "collection-A",
    subscription_id := "RANDOM-WRONG-SUBSCRIPTION",
    subscription_parameters := { response_type := none, content_bindings := [] } }

/-- Concrete witness for claim C5: unsubscribing an unknown id on the fixture
store succeeds with one synthetic instance and leaves the store unchanged. -/
theorem C5_unknown_unsubscribe_witness :
    SubscriptionRequest11Handler.handle_message store_A unknown_unsub_request "new-5" =
      (.ok { message_id := "new-5",
             in_response_to := "mid-5",
             name := "collection-A",
             message := some "Welcome",
             subscription_instances :=
               [{ subscription_id := "RANDOM-WRONG-SUBSCRIPTION",
                  status := some SubStatus.unsubscribed,
                  subscription_parameters := none,
                  poll_instances := [{ poll_address := "addr-1", poll_protocol := "proto-1" }] }] },
       store_A,
       [StoreEvent.getSubscription "RANDOM-WRONG-SUBSCRIPTION",
        StoreEvent.getCollection "collection-A",
        StoreEvent.getPollingServices]) :=
  (C5_unknown_unsubscribe store_A unknown_unsub_request "new-5" coll_A
    (by decide) (by decide) (by decide)).1 (by decide)

/-- Claim C1: version-11 validation — an action outside the version-11 legal
set yields BAD_MESSAGE; UNSUBSCRIBE, PAUSE or RESUME without a subscription id
yields BAD_MESSAGE; an absent subscription with action PAUSE, RESUME, or
STATUS with a supplied id yields NOT_FOUND with detail item = the
subscription id; every raised signal carries in_response_to = the request's
message id and no response is produced. -/
theorem C1_v11_validation (store : Store) (request : SubscriptionRequest)
    (new_message_id : String) :
    (ACT_TYPES_11.contains request.action = false →
      (SubscriptionRequest11Handler.handle_message store request new_message_id).1 =
        .error (.signal
          { status_type := StatusType.bad_message,
            message := some "The specified action was invalid",
            status_details := StatusDetails.empty,
            in_response_to := request.message_id }))
    ∧ ((request.action = ACT_UNSUBSCRIBE ∨ request.action = ACT_PAUSE ∨
          request.action = ACT_RESUME) →
      request.subscription_id = "" →
      (SubscriptionRequest11Handler.handle_message store request new_message_id).1 =
        .error (.signal
          { status_type := StatusType.bad_message,
            message := some (String.append (String.append "Action \"" request.action)
              "\" requires a subscription id"),
            status_details := StatusDetails.empty,
            in_response_to := request.message_id }))
    ∧ ((request.action = ACT_PAUSE ∨ request.action = ACT_RESUME ∨
          request.action = ACT_STATUS) →
      request.subscription_id ≠ "" →
      get_subscription store request.subscription_id = none →
      (SubscriptionRequest11Handler.handle_message store request new_message_id).1 =
        .error (.signal
          { status_type := StatusType.not_found,
            message := none,
            status_details := StatusDetails.item request.subscription_id,
            in_response_to := request.message_id })) := by
  refine ⟨?_, ?_, ?_⟩
  · intro h
    have h2 : request.action ∉ ACT_TYPES_11 := by simpa using h
    simp [SubscriptionRequest11Handler.handle_message,
      SubscriptionRequest11Handler.validate_request, lookup_subscription, h2]
  · intro hact hsid
    rcases hact with h | h | h <;>
      simp [SubscriptionRequest11Handler.handle_message,
        SubscriptionRequest11Handler.validate_request, lookup_subscription, h, hsid,
        ACT_TYPES_11, ACT_SUBSCRIBE, ACT_UNSUBSCRIBE, ACT_PAUSE, ACT_RESUME, ACT_STATUS]
  · intro hact hsid hsub
    rcases hact with h | h | h <;>
      simp [SubscriptionRequest11Handler.handle_message,
        SubscriptionRequest11Handler.validate_request, lookup_subscription, h, hsid, hsub,
        ACT_TYPES_11, ACT_SUBSCRIBE, ACT_UNSUBSCRIBE, ACT_PAUSE, ACT_RESUME, ACT_STATUS]

/-- Concrete witness for claim C1: an invalid action, a RESUME without an id,
and a STATUS naming an unknown id, each on the fixture store. -/
theorem C1_v11_validation_witness :
    (SubscriptionRequest11Handler.handle_message store_A
        { message_id := "mid-1a", action := "FROBNICATE", name := "collection-A",
          subscription_id := "",
          subscription_parameters := { response_type := none, content_bindings := [] } }
        "new-1a").1 =
      .error (.signal
        { status_type := StatusType.bad_message,
          message := some "The specified action was invalid",
          status_details := StatusDetails.empty,
          in_response_to := "mid-1a" })
    ∧ (SubscriptionRequest11Handler.handle_message store_A
        { message_id := "mid-1b", action := ACT_RESUME, name := "collection-A",
          subscription_id := "",
          subscription_parameters := { response_type := none, content_bindings := [] } }
        "new-1b").1 =
      .error (.signal
        { status_type := StatusType.bad_message,
          message := some (String.append (String.append "Action \"" ACT_RESUME)
            "\" requires a subscription id"),
          status_details := StatusDetails.empty,
          in_response_to := "mid-1b" })
    ∧ (SubscriptionRequest11Handler.handle_message store_A
        { message_id := "mid-1c", action := ACT_STATUS, name := "collection-A",
          subscription_id := "nope",
          subscription_parameters := { response_type := none, content_bindings := [] } }
        "new-1c").1 =
      .error (.signal
        { status_type := StatusType.not_found,
          message := none,
          status_details := StatusDetails.item "nope",
          in_response_to := "mid-1c" }) :=
  ⟨(C1_v11_validation store_A
      { message_id := "mid-1a", action := "FROBNICATE", name := "collection-A",
        subscription_id := "",
        subscription_parameters := { response_type := none, content_bindings := [] } }
      "new-1a").1 (by decide),
   (C1_v11_validation store_A
      { message_id := "mid-1b", action := ACT_RESUME, name := "collection-A",
        subscription_id := "",
        subscription_parameters := { response_type := none, content_bindings := [] } }
      "new-1b").2.1 (Or.inr (Or.inr rfl)) rfl,
   (C1_v11_validation store_A
      { message_id := "mid-1c", action := ACT_STATUS, name := "collection-A",
        subscription_id := "nope",
        subscription_parameters := { response_type := none, content_bindings := [] } }
      "new-1c").2.2 (Or.inr (Or.inr rfl)) (by decide) (by decide)⟩

/-- Claim C7: in both versions, a resolved subscription whose collection id
differs from the resolved collection's id yields NOT_FOUND with detail item =
the requested collection or feed name, whatever the (legal) action and
whatever the subscription's own state, with no store mutation. -/
theorem C7_collection_mismatch (store : Store) (request : SubscriptionRequest)
    (new_message_id : String) (sub : SubscriptionEntity) (collection : CollectionEntity)
    (hsid : request.subscription_id ≠ "")
    (hsub : get_subscription store request.subscription_id = some sub)
    (hcoll : get_collection store request.name = some collection)
    (hmis : sub.collection_id ≠ some collection.id) :
    (request.action ∈ ACT_TYPES_11 →
      SubscriptionRequest11Handler.handle_message store request new_message_id =
        (.error (.signal
          { status_type := StatusType.not_found,
            message := none,
            status_details := StatusDetails.item request.name,
            in_response_to := request.message_id }),
         store,
         [StoreEvent.getSubscription request.subscription_id,
          StoreEvent.getCollection request.name]))
    ∧ (request.action ∈ ACT_TYPES_10 →
      SubscriptionRequest10Handler.handle_message store request new_message_id =
        (.error (.signal
          { status_type := StatusType.not_found,
            message := none,
            status_details := StatusDetails.item request.name,
            in_response_to := request.message_id }),
         store,
         [StoreEvent.getCollection request.name,
          StoreEvent.getSubscription request.subscription_id])) := by
  refine ⟨?_, ?_⟩
  · intro hact
    simp [SubscriptionRequest11Handler.handle_message,
      SubscriptionRequest11Handler.validate_request, lookup_subscription,
      retrieve_collection, collection_mismatch, hact, hsid, hsub, hcoll, hmis]
  · intro hact
    have hact11 : request.action ∈ ACT_TYPES_11 := by
      simp only [ACT_TYPES_10, List.mem_cons, List.mem_singleton] at hact
      simp only [ACT_TYPES_11, List.mem_cons, List.mem_singleton]
      tauto
    simp [SubscriptionRequest10Handler.handle_message,
      SubscriptionRequest10Handler.validate_request, lookup_subscription,
      retrieve_collection, collection_mismatch, hact, hsid, hsub, hcoll, hmis]

/-- Fixture request: version-11 PAUSE naming a valid subscription through the
wrong collection. -/
def mismatch_request : SubscriptionRequest :=
  { message_id := "mid-7", action := ACT_PAUSE, name := "collection-B",
    subscription_id := "s1",
    subscription_parameters := { response_type := none, content_bindings := [] } }

/-- Concrete witness for claim C7: the fixture subscription lives under
collection 1, but the PAUSE request names collection-B (id 2); both handlers
would answer NOT_FOUND, shown here for version 11 with the PAUSE action. -/
theorem C7_collection_mismatch_witness :
    SubscriptionRequest11Handler.handle_message store_A mismatch_request "new-7" =
      (.error (.signal
        { status_type := StatusType.not_found,
          message := none,
          status_details := StatusDetails.item "collection-B",
          in_response_to := "mid-7" }),
       store_A,
       [StoreEvent.getSubscription "s1", StoreEvent.getCollection "collection-B"]) :=
  (C7_collection_mismatch store_A mismatch_request "new-7" sub_active coll_B
    (by decide) (by decide) (by decide) (by decide)).1 (by decide)

/-- Claim C8: PAUSE and RESUME are illegal on version 10 — the version-10
handler answers BAD_MESSAGE with no store access at all — although both are in
the version-11 legal set, where with a subscription id supplied they can only
fail with NOT_FOUND, never BAD_MESSAGE; in version 10 only UNSUBSCRIBE
requires a non-empty subscription id (any other legal action validates with
any id), and that check runs before any lookup that could raise NOT_FOUND. -/
theorem C8_v10_legality (store : Store) (request : SubscriptionRequest)
    (new_message_id : String) :
    ((request.action = ACT_PAUSE ∨ request.action = ACT_RESUME) →
      SubscriptionRequest10Handler.handle_message store request new_message_id =
        (.error (.signal
          { status_type := StatusType.bad_message,
            message := some "The specified action was invalid",
            status_details := StatusDetails.empty,
            in_response_to := request.message_id }),
         store, []))
    ∧ (ACT_PAUSE ∈ ACT_TYPES_11 ∧ ACT_RESUME ∈ ACT_TYPES_11
       ∧ ACT_PAUSE ∉ ACT_TYPES_10 ∧ ACT_RESUME ∉ ACT_TYPES_10)
    ∧ ((request.action = ACT_PAUSE ∨ request.action = ACT_RESUME) →
      request.subscription_id ≠ "" →
      ∀ subscription : Option SubscriptionEntity, ∀ sig : StatusSignal,
        SubscriptionRequest11Handler.validate_request request subscription = some sig →
        sig.status_type = StatusType.not_found)
    ∧ ((request.action ∈ ACT_TYPES_10 ∧ request.action ≠ ACT_UNSUBSCRIBE) →
      SubscriptionRequest10Handler.validate_request request = none)
    ∧ (request.action = ACT_UNSUBSCRIBE → request.subscription_id = "" →
      SubscriptionRequest10Handler.handle_message store request new_message_id =
        (.error (.signal
          { status_type := StatusType.bad_message,
            message := some (String.append (String.append "Action \"" request.action)
              "\" requires a subscription id"),
            status_details := StatusDetails.empty,
            in_response_to := request.message_id }),
         store, [])) := by
  refine ⟨?_, by decide, ?_, ?_, ?_⟩
  · intro hact
    rcases hact with h | h <;>
      simp [SubscriptionRequest10Handler.handle_message,
        SubscriptionRequest10Handler.validate_request, h,
        ACT_TYPES_10, ACT_SUBSCRIBE, ACT_UNSUBSCRIBE, ACT_PAUSE, ACT_RESUME, ACT_STATUS]
  · intro hact hsid subscription sig hval
    rcases hact with h | h <;>
      · simp [SubscriptionRequest11Handler.validate_request, h, hsid,
          ACT_TYPES_11, ACT_SUBSCRIBE, ACT_UNSUBSCRIBE, ACT_PAUSE, ACT_RESUME,
          ACT_STATUS] at hval
        rw [← hval.2]
  · intro hact
    rcases hact with ⟨hmem, hne⟩
    simp only [ACT_TYPES_10, ACT_SUBSCRIBE, ACT_UNSUBSCRIBE, ACT_STATUS,
      List.mem_cons, List.not_mem_nil, or_false] at hmem
    rcases hmem with h | h | h
    · simp [SubscriptionRequest10Handler.validate_request, h,
        ACT_TYPES_10, ACT_SUBSCRIBE, ACT_UNSUBSCRIBE, ACT_STATUS]
    · exact absurd h (by simpa [ACT_UNSUBSCRIBE] using hne)
    · simp [SubscriptionRequest10Handler.validate_request, h,
        ACT_TYPES_10, ACT_SUBSCRIBE, ACT_UNSUBSCRIBE, ACT_STATUS]
  · intro hact hsid
    simp [SubscriptionRequest10Handler.handle_message,
      SubscriptionRequest10Handler.validate_request, hact, hsid,
      ACT_TYPES_10, ACT_SUBSCRIBE, ACT_UNSUBSCRIBE, ACT_STATUS]

/-- Fixture request: PAUSE sent to the version-10 handler. -/
def v10_pause_request : SubscriptionRequest :=
  { message_id := "mid-8", action := ACT_PAUSE, name := "collection-A",
    subscription_id := "s1",
    subscription_parameters := { response_type := none, content_bindings := [] } }

/-- Fixture request: version-10 STATUS without a subscription id. -/
def v10_status_request : SubscriptionRequest :=
  { message_id := "mid-8b", action := ACT_STATUS, name := "collection-A",
    subscription_id := "",
    subscription_parameters := { response_type := none, content_bindings := [] } }

/-- Fixture request: version-10 UNSUBSCRIBE without a subscription id. -/
def v10_unsub_noid_request : SubscriptionRequest :=
  { message_id := "mid-8c", action := ACT_UNSUBSCRIBE, name := "collection-A",
    subscription_id := "",
    subscription_parameters := { response_type := none, content_bindings := [] } }

/-- Concrete witness for claim C8: the version-10 handler refuses PAUSE with
BAD_MESSAGE and no store access, the same PAUSE request on version-11
validation can only fail NOT_FOUND, STATUS needs no id on version 10, and
UNSUBSCRIBE without an id is refused before any lookup. -/
theorem C8_v10_legality_witness :
    SubscriptionRequest10Handler.handle_message store_A v10_pause_request "new-8" =
      (.error (.signal
        { status_type := StatusType.bad_message,
          message := some "The specified action was invalid",
          status_details := StatusDetails.empty,
          in_response_to := "mid-8" }),
       store_A, [])
    ∧ StatusSignal.status_type
        { status_type := StatusType.not_found, message := none,
          status_details := StatusDetails.item "s1", in_response_to := "mid-8" } =
        StatusType.not_found
    ∧ SubscriptionRequest10Handler.validate_request v10_status_request = none
    ∧ SubscriptionRequest10Handler.handle_message store_A v10_unsub_noid_request "new-8c" =
      (.error (.signal
        { status_type := StatusType.bad_message,
          message := some (String.append (String.append "Action \"" ACT_UNSUBSCRIBE)
            "\" requires a subscription id"),
          status_details := StatusDetails.empty,
          in_response_to := "mid-8c" }),
       store_A, []) :=
  ⟨(C8_v10_legality store_A v10_pause_request "new-8").1 (Or.inl rfl),
   (C8_v10_legality store_A v10_pause_request "new-8").2.2.1 (Or.inl rfl)
     (by decide) none
     { status_type := StatusType.not_found, message := none,
       status_details := StatusDetails.item "s1", in_response_to := "mid-8" }
     (by decide),
   (C8_v10_legality store_A v10_status_request "new-8b").2.2.2.1 (by decide),
   (C8_v10_legality store_A v10_unsub_noid_request "new-8c").2.2.2.2 rfl rfl⟩

/-- Fixture request: an action unknown to either protocol version, sent with a
subscription id. -/
def bad_action_request : SubscriptionRequest :=
  { message_id := "mid-3", action := "FROBNICATE", name := "collection-A",
    subscription_id := "s1",
    subscription_parameters := { response_type := none, content_bindings := [] } }

/-- Claim C3 is false on the code: the version-11 handler looks the
subscription up before validating, so this BAD_MESSAGE execution path performs
a subscription lookup first. -/
theorem C3_counterexample :
    (SubscriptionRequest11Handler.handle_message store_A bad_action_request "new-3").1 =
      .error (.signal
        { status_type := StatusType.bad_message,
          message := some "The specified action was invalid",
          status_details := StatusDetails.empty,
          in_response_to := "mid-3" })
    ∧ (SubscriptionRequest11Handler.handle_message store_A bad_action_request "new-3").2.2 =
      [StoreEvent.getSubscription "s1"] :=
  ⟨by rfl, by rfl⟩

/-- Helper: a status signal raised inside the action dispatch is always
UNSUPPORTED_CONTENT_BINDING — the transitions themselves never raise
BAD_MESSAGE or NOT_FOUND. -/
theorem run_action_signal_unsupported (action : String) (request : SubscriptionRequest)
    (store : Store) (collection : CollectionEntity)
    (subscription : Option SubscriptionEntity) (version : Nat) (sig : StatusSignal)
    (h : (run_action action request store collection subscription version).1 =
      .error (.signal sig)) :
    sig.status_type = StatusType.unsupported_content_binding := by
  unfold run_action action_subscribe action_unsubscribe action_status action_pause
    action_resume at h
  repeat' split at h
  all_goals try simp_all
  all_goals split at h
  all_goals try simp_all
  all_goals rename_i negotiated e heq
  all_goals repeat' split at heq
  all_goals try simp_all
  all_goals (subst heq; rfl)

/-- Claim C3 amended: a BAD_MESSAGE result leaves the store untouched and, in
version 10, is raised with no store access at all; in version 11 no collection
lookup and no write precedes it, but a subscription lookup does occur first
whenever the request supplies a subscription id. -/
theorem C3_badmessage_before_store_access (store : Store)
    (request : SubscriptionRequest) (new_message_id : String) (sig : StatusSignal) :
    ((SubscriptionRequest10Handler.handle_message store request new_message_id).1 =
        .error (.signal sig) →
      sig.status_type = StatusType.bad_message →
      SubscriptionRequest10Handler.handle_message store request new_message_id =
        (.error (.signal sig), store, []))
    ∧ ((SubscriptionRequest11Handler.handle_message store request new_message_id).1 =
        .error (.signal sig) →
      sig.status_type = StatusType.bad_message →
      (SubscriptionRequest11Handler.handle_message store request new_message_id).2.1 = store
      ∧ ((SubscriptionRequest11Handler.handle_message store request new_message_id).2.2 = []
         ∨ (SubscriptionRequest11Handler.handle_message store request new_message_id).2.2 =
            [StoreEvent.getSubscription request.subscription_id])) := by
  constructor
  · intro h hb
    rcases hval : SubscriptionRequest10Handler.validate_request request with _ | s
    · exfalso
      simp only [SubscriptionRequest10Handler.handle_message, hval] at h
      rcases hc : get_collection store request.name with _ | collection
      · simp only [retrieve_collection, hc, Except.error.injEq,
          HandlerFailure.signal.injEq] at h
        subst h
        simp at hb
      · simp only [retrieve_collection, hc] at h
        rcases hm : collection_mismatch (lookup_subscription store request).1 collection
        · simp only [hm] at h
          simp only [Bool.false_eq_true, if_false] at h
          rcases hr : (run_action request.action request store collection
              (lookup_subscription store request).1 10).1 with e | r
          · rcases e with s2 | _
            · simp only [hr, Except.error.injEq, HandlerFailure.signal.injEq] at h
              subst h
              rw [run_action_signal_unsupported _ _ _ _ _ _ _ hr] at hb
              cases hb
            · simp [hr] at h
          · simp [hr] at h
        · simp only [hm, if_true, Except.error.injEq, HandlerFailure.signal.injEq] at h
          subst h
          simp at hb
    · simp only [SubscriptionRequest10Handler.handle_message, hval] at h ⊢
      simp only [Except.error.injEq, HandlerFailure.signal.injEq] at h
      rw [h]
  · intro h hb
    rcases hval : SubscriptionRequest11Handler.validate_request request
        ((lookup_subscription store request).1) with _ | s
    · exfalso
      simp only [SubscriptionRequest11Handler.handle_message, hval] at h
      rcases hc : get_collection store request.name with _ | collection
      · simp only [retrieve_collection, hc, Except.error.injEq,
          HandlerFailure.signal.injEq] at h
        subst h
        simp at hb
      · simp only [retrieve_collection, hc] at h
        rcases hm : collection_mismatch (lookup_subscription store request).1 collection
        · simp only [hm] at h
          simp only [Bool.false_eq_true, if_false] at h
          rcases hr : (run_action request.action request store collection
              (lookup_subscription store request).1 11).1 with e | r
          · rcases e with s2 | _
            · simp only [hr, Except.error.injEq, HandlerFailure.signal.injEq] at h
              subst h
              rw [run_action_signal_unsupported _ _ _ _ _ _ _ hr] at hb
              cases hb
            · simp [hr] at h
          · simp [hr] at h
        · simp only [hm, if_true, Except.error.injEq, HandlerFailure.signal.injEq] at h
          subst h
          simp at hb
    · simp only [SubscriptionRequest11Handler.handle_message, hval] at h ⊢
      refine ⟨by trivial, ?_⟩
      rcases hs : request.subscription_id == ""
      · right
        simp [lookup_subscription, hs]
      · left
        simp [lookup_subscription, hs]

/-- Concrete witness for the amended claim C3: a version-10 PAUSE is refused
with no store access, and a version-11 unknown action with an id is refused
after only a subscription lookup. -/
theorem C3_badmessage_before_store_access_witness :
    SubscriptionRequest10Handler.handle_message store_A v10_pause_request "new-3w" =
      (.error (.signal
        { status_type := StatusType.bad_message,
          message := some "The specified action was invalid",
          status_details := StatusDetails.empty,
          in_response_to := "mid-8" }),
       store_A, [])
    ∧ (SubscriptionRequest11Handler.handle_message store_A bad_action_request "new-3x").2.1 =
        store_A
    ∧ ((SubscriptionRequest11Handler.handle_message store_A bad_action_request "new-3x").2.2 = []
       ∨ (SubscriptionRequest11Handler.handle_message store_A bad_action_request "new-3x").2.2 =
          [StoreEvent.getSubscription "s1"]) :=
  ⟨(C3_badmessage_before_store_access store_A v10_pause_request "new-3w"
      { status_type := StatusType.bad_message,
        message := some "The specified action was invalid",
        status_details := StatusDetails.empty,
        in_response_to := "mid-8" }).1 (by rfl) rfl,
   ((C3_badmessage_before_store_access store_A bad_action_request "new-3x"
      { status_type := StatusType.bad_message,
        message := some "The specified action was invalid",
        status_details := StatusDetails.empty,
        in_response_to := "mid-3" }).2 (by rfl) rfl).1,
   ((C3_badmessage_before_store_access store_A bad_action_request "new-3x"
      { status_type := StatusType.bad_message,
        message := some "The specified action was invalid",
        status_details := StatusDetails.empty,
        in_response_to := "mid-3" }).2 (by rfl) rfl).2⟩

/-- Fixture request: version-11 STATUS naming the stored subscription. -/
def status_by_id_request : SubscriptionRequest :=
  { message_id := "mid-9", action := ACT_STATUS, name := "collection-A",
    subscription_id := "s1",
    subscription_parameters := { response_type := none, content_bindings := [] } }

/-- Claim C9 is false on the code: the version-11 handler passes each result
subscription's own params as subscription_parameters for every action, so a
STATUS result instance carries negotiated subscription parameters. -/
theorem C9_counterexample :
    (SubscriptionRequest11Handler.handle_message store_A status_by_id_request "new-9").1 =
      .ok { message_id := "new-9",
            in_response_to := "mid-9",
            name := "collection-A",
            message := some "Welcome",
            subscription_instances :=
              [{ subscription_id := "s1",
                 status := some SubStatus.active,
                 subscription_parameters := some sampleParams,
                 poll_instances := [{ poll_address := "addr-1", poll_protocol := "proto-1" }] }] }
    ∧ some sampleParams ≠ (none : Option PollRequestParametersEntity) :=
  ⟨by rfl, by decide⟩

/-- Claim C9 amended: the version-11 response's instance list is exactly the
handler's actual action results, each converted with its own params field as
the subscription parameters — whatever the action was; concretely, a
STATUS-by-id result instance carries the stored subscription's params
verbatim; version-10 instances never carry subscription parameters, nor a
status. -/
theorem C9_subscription_parameters (store : Store) (request : SubscriptionRequest)
    (new_message_id : String) :
    (∀ resp, (SubscriptionRequest10Handler.handle_message store request new_message_id).1 =
        .ok resp →
      ∀ inst ∈ resp.subscription_instances,
        inst.subscription_parameters = none ∧ inst.status = none)
    ∧ (∀ resp collection r,
        get_collection store request.name = some collection →
        (run_action request.action request store collection
            (lookup_subscription store request).1 11).1 = .ok r →
        (SubscriptionRequest11Handler.handle_message store request new_message_id).1 =
          .ok resp →
        resp.subscription_instances =
          (results_of r).map (fun s =>
            subscription_to_subscription_instance s
              (get_polling_services
                (run_action request.action request store collection
                  (lookup_subscription store request).1 11).2.1 collection)
              11 s.params))
    ∧ (request.action = ACT_STATUS →
        request.subscription_id ≠ "" →
        ∀ sub collection,
          get_subscription store request.subscription_id = some sub →
          get_collection store request.name = some collection →
          sub.collection_id = some collection.id →
          (SubscriptionRequest11Handler.handle_message store request new_message_id).1 =
            .ok { message_id := new_message_id,
                  in_response_to := request.message_id,
                  name := collection.name,
                  message := store.subscription_message,
                  subscription_instances :=
                    [subscription_to_subscription_instance sub store.polling_services
                      11 sub.params] }) := by
  refine ⟨?_, ?_, ?_⟩
  · intro resp h inst hmem
    rcases hval : SubscriptionRequest10Handler.validate_request request with _ | s
    · simp only [SubscriptionRequest10Handler.handle_message, hval] at h
      rcases hc : get_collection store request.name with _ | collection
      · simp [retrieve_collection, hc] at h
      · simp only [retrieve_collection, hc] at h
        rcases hm : collection_mismatch (lookup_subscription store request).1 collection
        · simp only [hm, Bool.false_eq_true, if_false] at h
          rcases hr : (run_action request.action request store collection
              (lookup_subscription store request).1 10).1 with e | r
          · simp [hr] at h
          · simp only [hr, Except.ok.injEq] at h
            subst h
            simp only [List.mem_map] at hmem
            rcases hmem with ⟨s2, _, rfl⟩
            simp [subscription_to_subscription_instance]
        · simp [hm] at h
    · simp [SubscriptionRequest10Handler.handle_message, hval] at h
  · intro resp collection r hc hr hok
    rcases hval : SubscriptionRequest11Handler.validate_request request
        ((lookup_subscription store request).1) with _ | s
    · simp only [SubscriptionRequest11Handler.handle_message, hval] at hok
      simp only [retrieve_collection, hc] at hok
      rcases hm : collection_mismatch (lookup_subscription store request).1 collection
      · simp only [hm, Bool.false_eq_true, if_false] at hok
        simp only [hr, Except.ok.injEq] at hok
        subst hok
        rfl
      · simp [hm] at hok
    · simp [SubscriptionRequest11Handler.handle_message, hval] at hok
  · intro hact hsid sub collection hsub hc hcid
    simp [SubscriptionRequest11Handler.handle_message,
      SubscriptionRequest11Handler.validate_request, lookup_subscription,
      retrieve_collection, collection_mismatch, run_action, action_status,
      results_of, subscription_to_subscription_instance, get_polling_services,
      hact, hsid, hsub, hc, hcid, ACT_TYPES_11, ACT_UNSUBSCRIBE, ACT_SUBSCRIBE,
      ACT_PAUSE, ACT_RESUME, ACT_STATUS]

/-- Concrete witness for the amended claim C9: a version-10 STATUS-all result
instance carries neither parameters nor status, and the version-11
STATUS-by-id result instance carries the stored subscription's own params,
here some sampleParams, not none. -/
theorem C9_subscription_parameters_witness :
    ({ subscription_id := "s1", status := none, subscription_parameters := none,
       poll_instances := [{ poll_address := "addr-1", poll_protocol := "proto-1" }] }
        : SubscriptionInstanceWire).subscription_parameters = none
    ∧ ({ subscription_id := "s1", status := none, subscription_parameters := none,
         poll_instances := [{ poll_address := "addr-1", poll_protocol := "proto-1" }] }
        : SubscriptionInstanceWire).status = none
    ∧ (SubscriptionRequest11Handler.handle_message store_A status_by_id_request "new-9x").1 =
        .ok { message_id := "new-9x",
              in_response_to := "mid-9",
              name := "collection-A",
              message := some "Welcome",
              subscription_instances :=
                [{ subscription_id := "s1",
                   status := some SubStatus.active,
                   subscription_parameters := some sampleParams,
                   poll_instances :=
                     [{ poll_address := "addr-1", poll_protocol := "proto-1" }] }] } :=
  ⟨((C9_subscription_parameters store_A v10_status_request "new-9w").1
      { message_id := "new-9w", in_response_to := "mid-8b", name := "collection-A",
        message := some "Welcome",
        subscription_instances :=
          [{ subscription_id := "s1", status := none, subscription_parameters := none,
             poll_instances := [{ poll_address := "addr-1", poll_protocol := "proto-1" }] }] }
      (by rfl) _ (by decide)).1,
   ((C9_subscription_parameters store_A v10_status_request "new-9w").1
      { message_id := "new-9w", in_response_to := "mid-8b", name := "collection-A",
        message := some "Welcome",
        subscription_instances :=
          [{ subscription_id := "s1", status := none, subscription_parameters := none,
             poll_instances := [{ poll_address := "addr-1", poll_protocol := "proto-1" }] }] }
      (by rfl) _ (by decide)).2,
   (C9_subscription_parameters store_A status_by_id_request "new-9x").2.2
     rfl (by decide) sub_active coll_A (by decide) (by decide) (by decide)⟩

/-- Helper: passing version-11 validation requires the action to be in the
version-11 legal set. -/
theorem validate11_none_contains (request : SubscriptionRequest)
    (subscription : Option SubscriptionEntity)
    (h : SubscriptionRequest11Handler.validate_request request subscription = none) :
    ACT_TYPES_11.contains request.action = true := by
  rcases hcon : ACT_TYPES_11.contains request.action
  · exfalso
    have hcon2 : request.action ∉ ACT_TYPES_11 := by simpa using hcon
    simp [SubscriptionRequest11Handler.validate_request, hcon2] at h
  · rfl

/-- Helper: passing version-11 validation with action PAUSE or RESUME
guarantees the subscription was resolved. -/
theorem validate11_none_pause_resume_some (request : SubscriptionRequest)
    (subscription : Option SubscriptionEntity)
    (h : SubscriptionRequest11Handler.validate_request request subscription = none)
    (hact : request.action = ACT_PAUSE ∨ request.action = ACT_RESUME) :
    subscription.isSome = true := by
  rcases subscription with _ | sub
  · exfalso
    rcases hact with ha | ha <;>
      rcases hs : request.subscription_id == "" <;>
        simp [SubscriptionRequest11Handler.validate_request, ha, hs, ACT_TYPES_11,
          ACT_SUBSCRIBE, ACT_UNSUBSCRIBE, ACT_PAUSE, ACT_RESUME, ACT_STATUS] at h
  · rfl

/-- Helper: `action_subscribe` never evaluates to the Python-error outcome. -/
theorem action_subscribe_no_pythonError (request : SubscriptionRequest)
    (store : Store) (collection : CollectionEntity) (version : Nat) :
    (action_subscribe request store collection version).1 ≠
      Except.error HandlerFailure.pythonError := by
  intro h
  unfold action_subscribe at h
  repeat' split at h
  all_goals try simp_all
  all_goals split at h
  all_goals try simp_all
  all_goals rename_i negotiated e heq
  all_goals repeat' split at heq
  all_goals simp_all

/-- Helper: the version-11 handler never evaluates to the Python runtime
error outcome. -/
theorem handle11_never_pythonError (store : Store) (request : SubscriptionRequest)
    (new_message_id : String) :
    (SubscriptionRequest11Handler.handle_message store request new_message_id).1 ≠
      Except.error HandlerFailure.pythonError := by
  intro h
  rcases hval : SubscriptionRequest11Handler.validate_request request
      ((lookup_subscription store request).1) with _ | s
  · simp only [SubscriptionRequest11Handler.handle_message, hval] at h
    rcases hc : get_collection store request.name with _ | collection
    · simp [retrieve_collection, hc] at h
    · simp only [retrieve_collection, hc] at h
      rcases hm : collection_mismatch (lookup_subscription store request).1 collection
      · simp only [hm, Bool.false_eq_true, if_false] at h
        rcases hr : (run_action request.action request store collection
            (lookup_subscription store request).1 11).1 with e | r
        · simp only [hr, Except.error.injEq] at h
          subst h
          have hcon := validate11_none_contains request
            ((lookup_subscription store request).1) hval
          have hcon2 : request.action ∈ ACT_TYPES_11 := by simpa using hcon
          simp only [ACT_TYPES_11, ACT_SUBSCRIBE, ACT_UNSUBSCRIBE, ACT_PAUSE,
            ACT_RESUME, ACT_STATUS, List.mem_cons, List.not_mem_nil, or_false] at hcon2
          rcases hcon2 with ha | ha | ha | ha | ha
          · rw [ha] at hr
            simp only [run_action, ACT_SUBSCRIBE] at hr
            simp at hr
            exact action_subscribe_no_pythonError request store collection 11 hr
          · rw [ha] at hr
            rcases hsub : (lookup_subscription store request).1 with _ | sub <;>
              simp [run_action, action_unsubscribe, hsub,
                ACT_SUBSCRIBE, ACT_UNSUBSCRIBE] at hr
          · have hsome := validate11_none_pause_resume_some request
              ((lookup_subscription store request).1) hval (Or.inl ha)
            rcases hsub : (lookup_subscription store request).1 with _ | sub
            · rw [hsub] at hsome
              simp at hsome
            · rw [ha, hsub] at hr
              rcases hst : sub.status == SubStatus.paused <;>
                simp [run_action, action_pause, hst,
                  ACT_SUBSCRIBE, ACT_UNSUBSCRIBE, ACT_PAUSE] at hr
          · have hsome := validate11_none_pause_resume_some request
              ((lookup_subscription store request).1) hval (Or.inr ha)
            rcases hsub : (lookup_subscription store request).1 with _ | sub
            · rw [hsub] at hsome
              simp at hsome
            · rw [ha, hsub] at hr
              rcases hst : sub.status == SubStatus.paused <;>
                simp [run_action, action_resume, hst,
                  ACT_SUBSCRIBE, ACT_UNSUBSCRIBE, ACT_PAUSE, ACT_RESUME] at hr
          · rw [ha] at hr
            rcases hsub : (lookup_subscription store request).1 with _ | sub <;>
              simp [run_action, action_status, hsub,
                ACT_SUBSCRIBE, ACT_UNSUBSCRIBE, ACT_PAUSE, ACT_RESUME, ACT_STATUS] at hr
        · simp [hr] at h
      · simp [hm] at h
  · simp [SubscriptionRequest11Handler.handle_message, hval] at h

/-- Claim C10: every version-11 handler outcome is a response or a structured
status signal, never the Python runtime error — by the time PAUSE or RESUME
dispatches, validation has already guaranteed a resolved subscription (else it
raised BAD_MESSAGE or NOT_FOUND), so the transition's read of
subscription.status never dereferences an absent value (and the
dispatch-table lookup never misses). -/
theorem C10_no_absent_dereference (store : Store) (request : SubscriptionRequest)
    (new_message_id : String) :
    (∃ resp, (SubscriptionRequest11Handler.handle_message store request new_message_id).1 =
        .ok resp)
    ∨ (∃ sig, (SubscriptionRequest11Handler.handle_message store request new_message_id).1 =
        .error (.signal sig)) := by
  rcases hr : (SubscriptionRequest11Handler.handle_message store request new_message_id).1
    with e | resp
  · rcases e with s | _
    · exact Or.inr ⟨s, rfl⟩
    · exact absurd hr (handle11_never_pythonError store request new_message_id)
  · exact Or.inl ⟨resp, rfl⟩
